import Mathlib

/-!
# Verification of the SCHISM overview-plotting composer

Shallow embedding of `rompy/schism/plotting/overview.py` (class
`OverviewPlotter`).  The module composes multi-panel overview figures:
three entry points lay out named regions, render each one (delegating to
external grid/data chart producers or to internal stub routines), and
optionally persist the figure.

Modelling choices:
* A region's observable outcome is `RegionContent`: either a rendered
  chart or a centered placeholder label (the text drawn by the
  `except` branches of the source).
* The external chart-producer delegate calls (`GridPlotter.plot_bathymetry`,
  `plot_grid_quality`, `plot_boundaries`, `plot_grid`,
  `DataPlotter.plot_atmospheric_spatial`) are external collaborators whose
  code is outside this module; each call's outcome is a parameter of type
  `Except String Unit` (success, or a raised exception carrying a message).
* Machine floats are modelled by `ℚ`; a possibly-NaN depth value is
  `Option ℚ` with `none` standing for NaN.
* The filesystem is a pair of directory and file lists; `mkdir` /
  `savefig` success is an oracle (`SaveOracle`), since their failure
  depends on the external filesystem state.
* Python truthiness of the `save_path` argument (`None` or a string) is
  `pyTruthy`.
-/

/-- Outcome of rendering one named region: a drawn chart, or the centered
placeholder text drawn when rendering failed or data was unavailable. -/
inductive RegionContent where
  | chart : RegionContent
  | placeholder : String → RegionContent
deriving DecidableEq, Repr

/-- External unstructured-mesh dataset handle; only the per-node depth
array matters to the claims.  `none` entries stand for NaN depths. -/
structure GridHandle where
  depths : List (Option ℚ)
deriving DecidableEq, Repr

deriving instance DecidableEq for Except

/-- Outcomes of the external chart-producer delegate calls made by
`OverviewPlotter`.  Each field is the result of invoking that delegate:
`.ok ()` when the call draws successfully, `.error msg` when it raises. -/
structure Delegates where
  plotBathymetry : Except String Unit
  plotGridQuality : Except String Unit
  plotBoundaries : Except String Unit
  plotGrid : Except String Unit
  plotAtmosphericSpatial : Except String Unit
  hasAtmosphericSpatial : Bool
deriving DecidableEq, Repr

/-- The `OverviewPlotter` state: the optional grid handle (`self.grid`)
and the behaviour of its two sub-plotter delegates. -/
structure OverviewPlotter where
  grid : Option GridHandle
  delegates : Delegates
deriving DecidableEq, Repr

/-- `_plot_main_grid_panel` (overview.py:298): delegates to
`plot_bathymetry` inside try/except; on failure draws the placeholder
"Grid visualization unavailable". -/
def plotMainGridPanel (p : OverviewPlotter) : RegionContent :=
  match p.delegates.plotBathymetry with
  | .ok _ => .chart
  | .error _ => .placeholder "Grid visualization unavailable"

/-- `_plot_boundary_panel` (overview.py:315): delegates to
`plot_boundaries` inside try/except; placeholder "Boundary data
unavailable" on failure. -/
def plotBoundaryPanel (p : OverviewPlotter) : RegionContent :=
  match p.delegates.plotBoundaries with
  | .ok _ => .chart
  | .error _ => .placeholder "Boundary data unavailable"

/-- `_plot_data_locations_panel` (overview.py:325): when the grid handle
is present, delegates to `plot_grid` (failure caught, placeholder "Data
locations unavailable"); when absent, skips the grid outline and still
completes. -/
def plotDataLocationsPanel (p : OverviewPlotter) : RegionContent :=
  match p.grid with
  | some _ =>
      match p.delegates.plotGrid with
      | .ok _ => .chart
      | .error _ => .placeholder "Data locations unavailable"
  | none => .chart

/-- `_plot_quality_metrics_panel` (overview.py:341): with a grid handle,
charts the stub quality metrics; without one, draws the placeholder
"Grid quality metrics unavailable". -/
def plotQualityMetricsPanel (p : OverviewPlotter) : RegionContent :=
  match p.grid with
  | some _ => .chart
  | none => .placeholder "Grid quality metrics unavailable"

/-- `_plot_validation_panel` (overview.py:356): charts the stubbed
validation results; the stub is a fixed dictionary, so this always
succeeds. -/
def plotValidationPanel (_p : OverviewPlotter) : RegionContent := .chart

/-- `_plot_data_summary_panel` (overview.py:367): charts the stubbed
data summary (fixed dictionary); always succeeds. -/
def plotDataSummaryPanel (_p : OverviewPlotter) : RegionContent := .chart

/-- `_plot_timeseries_overview_panel` (overview.py:378): plots dummy
generated time series; always succeeds. -/
def plotTimeseriesOverviewPanel (_p : OverviewPlotter) : RegionContent := .chart

/-- `_plot_model_info_panel` (overview.py:388): tables the stubbed model
info (fixed dictionary); always succeeds. -/
def plotModelInfoPanel (_p : OverviewPlotter) : RegionContent := .chart

/-- `_plot_depth_histogram` (overview.py:602): with a grid handle,
histograms the NaN-filtered depths; without one, placeholder "Grid data
unavailable". -/
def plotDepthHistogram (p : OverviewPlotter) : RegionContent :=
  match p.grid with
  | some _ => .chart
  | none => .placeholder "Grid data unavailable"

/-- `_plot_element_size_histogram` (overview.py:622): histograms dummy
generated element sizes; always succeeds. -/
def plotElementSizeHistogram (_p : OverviewPlotter) : RegionContent := .chart

/-- `_plot_grid_statistics_table` (overview.py:639): with a grid handle,
tables the computed grid statistics (an empty valid-depth array makes the
numpy reductions raise, yielding an empty dict and the "No grid
statistics available" placeholder); without a grid handle, placeholder
"Grid statistics unavailable". -/
def plotGridStatisticsTable (p : OverviewPlotter) : RegionContent :=
  match p.grid with
  | some g =>
      if (g.depths.filterMap id).isEmpty then
        .placeholder "No grid statistics available"
      else .chart
  | none => .placeholder "Grid statistics unavailable"

/-- `_plot_atmospheric_overview` (overview.py:723): if the data plotter
has `plot_atmospheric_spatial`, delegates to it (failure caught,
placeholder "Atmospheric data unavailable"); otherwise the same
placeholder is drawn directly. -/
def plotAtmosphericOverview (p : OverviewPlotter) : RegionContent :=
  if p.delegates.hasAtmosphericSpatial then
    match p.delegates.plotAtmosphericSpatial with
    | .ok _ => .chart
    | .error _ => .placeholder "Atmospheric data unavailable"
  else .placeholder "Atmospheric data unavailable"

/-- `_plot_boundary_data_locations` (overview.py:738): optional grid
outline via `plot_grid` (when the grid handle is present), then
`plot_boundaries`; any failure is caught and replaced by the placeholder
"Boundary locations unavailable". -/
def plotBoundaryDataLocations (p : OverviewPlotter) : RegionContent :=
  match p.grid with
  | some _ =>
      match p.delegates.plotGrid with
      | .ok _ =>
          match p.delegates.plotBoundaries with
          | .ok _ => .chart
          | .error _ => .placeholder "Boundary locations unavailable"
      | .error _ => .placeholder "Boundary locations unavailable"
  | none =>
      match p.delegates.plotBoundaries with
      | .ok _ => .chart
      | .error _ => .placeholder "Boundary locations unavailable"

/-- `_plot_data_coverage_timeline` (overview.py:755): dummy timeline
bars; always succeeds. -/
def plotDataCoverageTimeline (_p : OverviewPlotter) : RegionContent := .chart

/-- `_plot_atmospheric_timeseries_overview` (overview.py:787): dummy
dual-axis time series; always succeeds. -/
def plotAtmosphericTimeseriesOverview (_p : OverviewPlotter) : RegionContent := .chart

/-- `_plot_boundary_timeseries_overview` (overview.py:824): dummy
dual-axis time series; always succeeds. -/
def plotBoundaryTimeseriesOverview (_p : OverviewPlotter) : RegionContent := .chart

/-- `_plot_data_quality_metrics` (overview.py:856): bar chart of a fixed
stub metric dictionary; always succeeds. -/
def plotDataQualityMetricsPanel (_p : OverviewPlotter) : RegionContent := .chart

/-- `_plot_data_statistics_table` (overview.py:891): tables a fixed stub
statistics dictionary; always succeeds. -/
def plotDataStatisticsTablePanel (_p : OverviewPlotter) : RegionContent := .chart

/-! ## Filesystem model and the save operation -/

/-- Abstract filesystem: existing directories and written files, both as
path strings. -/
structure FS where
  dirs : List String
  files : List String
deriving DecidableEq, Repr

/-- Whether `mkdir(parents=True, exist_ok=True)` and `fig.savefig`
succeed on the external filesystem (e.g. `writeOk = false` models an
unwritable path). -/
structure SaveOracle where
  mkdirOk : Bool
  writeOk : Bool
deriving DecidableEq, Repr

/-- Insert a path into a list unless already present (`exist_ok=True`
semantics for directory creation). -/
def addIfAbsent (x : String) (l : List String) : List String :=
  if x ∈ l then l else x :: l

/-- `Path(p).parent` as a string: everything before the final slash;
"." when there is no slash; "/" for a top-level path. -/
def parentDir (p : String) : String :=
  match (p.toList.reverse.dropWhile (fun c => c ≠ '/')) with
  | [] => "."
  | _ :: rest => if rest.isEmpty then "/" else String.mk rest.reverse

/-- `_save_plot` (overview.py:931): inside one try/except, create the
path's parent directory (`mkdir(parents=True, exist_ok=True)`), then
`savefig`; any failure is caught and logged at error level.  Returns the
filesystem after the attempt and whether an error was logged.  The
function itself never raises. -/
def savePlot (o : SaveOracle) (fs : FS) (path : String) : FS × Bool :=
  if o.mkdirOk then
    let fs1 : FS := { fs with dirs := addIfAbsent (parentDir path) fs.dirs }
    if o.writeOk then
      ({ fs1 with files := addIfAbsent path fs1.files }, false)
    else (fs1, true)
  else (fs, true)

/-- Python truthiness of the `save_path` argument: `None` and the empty
string are falsy, any non-empty string is truthy. -/
def pyTruthy : Option String → Bool
  | none => false
  | some s => !s.isEmpty

/-! ## The three composition entry points -/

/-- Region list built by `plot_comprehensive_overview`
(overview.py:105-145): `grid`, `boundaries`, `data_locations` always;
`quality`, `validation`, `data_summary` gated by the three flags (in
that source order); `timeseries` and `info` always. -/
def compAxes (p : OverviewPlotter)
    (include_validation include_quality_metrics include_data_summary : Bool) :
    List (String × RegionContent) :=
  [("grid", plotMainGridPanel p),
   ("boundaries", plotBoundaryPanel p),
   ("data_locations", plotDataLocationsPanel p)]
  ++ (if include_quality_metrics then [("quality", plotQualityMetricsPanel p)] else [])
  ++ (if include_validation then [("validation", plotValidationPanel p)] else [])
  ++ (if include_data_summary then [("data_summary", plotDataSummaryPanel p)] else [])
  ++ [("timeseries", plotTimeseriesOverviewPanel p),
      ("info", plotModelInfoPanel p)]

/-- `plot_comprehensive_overview` (overview.py:58): render all regions
(each panel helper catches its own failures), then save when
`save_path` is truthy.  Returns the region mapping, the filesystem after
the optional save, and whether a save error was logged. -/
def plot_comprehensive_overview (p : OverviewPlotter)
    (include_validation include_quality_metrics include_data_summary : Bool)
    (save_path : Option String) (o : SaveOracle) (fs : FS) :
    List (String × RegionContent) × FS × Bool :=
  let axes := compAxes p include_validation include_quality_metrics include_data_summary
  if pyTruthy save_path then (axes, savePlot o fs (save_path.getD ""))
  else (axes, fs, false)

/-- Region list of `plot_grid_analysis_overview` (overview.py:187-218).
The `grid`, `quality` and `boundaries` regions call the grid sub-plotter
directly with no try/except, so a failure there propagates (`Except`);
`depth_hist`, `size_hist` and `stats` use the guarded panel helpers. -/
def gridAxesE (p : OverviewPlotter) : Except String (List (String × RegionContent)) :=
  match p.delegates.plotBathymetry with
  | .error e => .error e
  | .ok _ =>
    match p.delegates.plotGridQuality with
    | .error e => .error e
    | .ok _ =>
      match p.delegates.plotBoundaries with
      | .error e => .error e
      | .ok _ =>
        .ok [("grid", .chart),
             ("quality", .chart),
             ("boundaries", .chart),
             ("depth_hist", plotDepthHistogram p),
             ("size_hist", plotElementSizeHistogram p),
             ("stats", plotGridStatisticsTable p)]

/-- `plot_grid_analysis_overview` (overview.py:156): render the six
regions (three of them unguarded, so the call can raise), then save when
`save_path` is truthy. -/
def plot_grid_analysis_overview (p : OverviewPlotter)
    (save_path : Option String) (o : SaveOracle) (fs : FS) :
    Except String (List (String × RegionContent) × FS × Bool) :=
  match gridAxesE p with
  | .error e => .error e
  | .ok axes =>
      if pyTruthy save_path then .ok (axes, savePlot o fs (save_path.getD ""))
      else .ok (axes, fs, false)

/-- Region list built by `plot_data_analysis_overview`
(overview.py:258-289); every region's renderer catches its own
failures. -/
def dataAxes (p : OverviewPlotter) : List (String × RegionContent) :=
  [("atmospheric", plotAtmosphericOverview p),
   ("boundary_locations", plotBoundaryDataLocations p),
   ("coverage", plotDataCoverageTimeline p),
   ("atm_timeseries", plotAtmosphericTimeseriesOverview p),
   ("boundary_ts", plotBoundaryTimeseriesOverview p),
   ("data_quality", plotDataQualityMetricsPanel p),
   ("data_stats", plotDataStatisticsTablePanel p)]

/-- `plot_data_analysis_overview` (overview.py:227): render the seven
guarded regions, then save when `save_path` is truthy. -/
def plot_data_analysis_overview (p : OverviewPlotter)
    (save_path : Option String) (o : SaveOracle) (fs : FS) :
    List (String × RegionContent) × FS × Bool :=
  let axes := dataAxes p
  if pyTruthy save_path then (axes, savePlot o fs (save_path.getD ""))
  else (axes, fs, false)

/-- Key set of a returned region mapping (insertion order). -/
def keysOf (axes : List (String × RegionContent)) : List String :=
  axes.map Prod.fst

/-! ## Chart colouring rules -/

/-- Per-bar colour of `_plot_quality_metrics_chart` (overview.py:440):
`'green' if v > 0.8 else 'orange' if v > 0.6 else 'red'`. -/
def qualityMetricsBarColor (v : ℚ) : String :=
  if v > 4/5 then "green" else if v > 3/5 then "orange" else "red"

/-- The full colour list of the grid-quality bar chart: one colour per
metric value, in order (overview.py:440). -/
def qualityMetricsChartColors (metrics : List (String × ℚ)) : List String :=
  metrics.map (fun kv => qualityMetricsBarColor kv.2)

/-- Per-bar colour of `_plot_data_quality_metrics` (overview.py:870):
`'green' if v >= 0.9 else 'orange' if v >= 0.8 else 'red'`. -/
def dataQualityBarColor (v : ℚ) : String :=
  if v ≥ 9/10 then "green" else if v ≥ 4/5 then "orange" else "red"

/-- The full colour list of the data-quality bar chart
(overview.py:870). -/
def dataQualityChartColors (metrics : List (String × ℚ)) : List String :=
  metrics.map (fun kv => dataQualityBarColor kv.2)

/-- Status colour of `_plot_validation_results` (overview.py:475-476):
`{'PASS': 'green', 'WARNING': 'orange', 'FAIL': 'red'}.get(status, 'gray')`. -/
def validationStatusColor (status : String) : String :=
  if status = "PASS" then "green"
  else if status = "WARNING" then "orange"
  else if status = "FAIL" then "red"
  else "gray"

/-- The `bar_colors` list of the validation panel (overview.py:476). -/
def validationBarColors (results : List (String × String)) : List String :=
  results.map (fun kv => validationStatusColor kv.2)

/-! ## Depth statistics (NaN filtering) -/

/-- `depths[~np.isnan(depths)]` as used by `_plot_depth_histogram`
(overview.py:606-607): the NaN entries are dropped before the
histogram is drawn. -/
def depthHistogramData (g : GridHandle) : List ℚ :=
  g.depths.filterMap id

/-- `depths[~np.isnan(depths)]` as used by `_calculate_grid_statistics`
(overview.py:659-660). -/
def validDepths (g : GridHandle) : List ℚ :=
  g.depths.filterMap id

/-- `np.min` over a list of rationals (none for the empty list, where
numpy raises). -/
def listMin : List ℚ → Option ℚ
  | [] => none
  | x :: xs => some (xs.foldl min x)

/-- `np.max` over a list of rationals. -/
def listMax : List ℚ → Option ℚ
  | [] => none
  | x :: xs => some (xs.foldl max x)

/-- `np.mean` over a list of rationals. -/
def listMean (l : List ℚ) : Option ℚ :=
  if l.isEmpty then none
  else some (l.foldl (· + ·) 0 / (l.length : ℚ))

/-- The numeric core of `_calculate_grid_statistics` (overview.py:653):
min, max and mean of the NaN-filtered depth array. -/
def gridDepthStats (g : GridHandle) : Option (ℚ × ℚ × ℚ) :=
  match listMin (validDepths g), listMax (validDepths g), listMean (validDepths g) with
  | some mn, some mx, some me => some (mn, mx, me)
  | _, _, _ => none

/-! ## Statistics-table layout (`_create_statistics_table`) -/

/-- One table cell pair at flat index `idx` (overview.py:692-697):
the key/value pair when `idx < len(items)`, two empty strings past the
end. -/
def tableCell (items : List (String × String)) (idx : ℕ) : List String :=
  match items.get? idx with
  | some kv => [kv.1, kv.2]
  | none => ["", ""]

/-- One table row (overview.py:689-698): `n_cols = 3` cell pairs,
appended left to right, flat index `row * 3 + col`. -/
def statisticsTableRow (items : List (String × String)) (row : ℕ) : List String :=
  (List.range 3).foldl (fun rowData col => rowData ++ tableCell items (row * 3 + col)) []

/-- The `table_data` built by `_create_statistics_table`
(overview.py:683-698): `n_rows = (len(items) + 3 - 1) // 3` rows. -/
def statisticsTableData (items : List (String × String)) : List (List String) :=
  (List.range ((items.length + 3 - 1) / 3)).map (statisticsTableRow items)

/-! ## Theorems -/

/-- C4 counterexample: the claim says a score of exactly 0.8 is coloured
green (green iff v ≥ 0.8), but the source's strict comparison
`v > 0.8` (overview.py:440) colours 0.8 orange. -/
theorem C4_counterexample :
    (4/5 : ℚ) ≥ 4/5 ∧ qualityMetricsBarColor (4/5) = "orange"
      ∧ ("orange" : String) ≠ "green" := by
  refine ⟨le_refl _, ?_, by decide⟩
  norm_num [qualityMetricsBarColor]

/-- C4 (amended): the grid-quality bar chart colours a score green iff
v > 0.8, orange iff 0.6 < v ≤ 0.8, and red iff v ≤ 0.6 (strict
thresholds); in particular the scores {a: 0.95, b: 0.75, c: 0.5} are
coloured {a: green, b: orange, c: red}. -/
theorem C4_quality_bar_colors (v : ℚ) :
    (qualityMetricsBarColor v = "green" ↔ 4/5 < v)
    ∧ (qualityMetricsBarColor v = "orange" ↔ (3/5 < v ∧ v ≤ 4/5))
    ∧ (qualityMetricsBarColor v = "red" ↔ v ≤ 3/5)
    ∧ qualityMetricsChartColors [("a", 19/20), ("b", 3/4), ("c", 1/2)]
        = ["green", "orange", "red"] := by
  refine ⟨?_, ?_, ?_, by norm_num [qualityMetricsChartColors, qualityMetricsBarColor]⟩ <;>
    (unfold qualityMetricsBarColor; split_ifs with h1 h2 <;> simp_all <;> linarith)

/-- C5 counterexample: the two quality panels do not share one
threshold rule.  At score 0.85 the grid-quality chart
(overview.py:440, strict `> 0.8` / `> 0.6`) yields green while the
data-quality chart (overview.py:870, `>= 0.9` / `>= 0.8`) yields
orange — the claimed common rule (green iff v ≥ 0.9) also mislabels the
grid chart's green at 0.85. -/
theorem C5_counterexample :
    qualityMetricsBarColor (17/20) = "green"
    ∧ dataQualityBarColor (17/20) = "orange"
    ∧ qualityMetricsBarColor (17/20) ≠ dataQualityBarColor (17/20) := by
  have hq : qualityMetricsBarColor (17/20) = "green" := by
    norm_num [qualityMetricsBarColor]
  have hd : dataQualityBarColor (17/20) = "orange" := by
    norm_num [dataQualityBarColor]
  refine ⟨hq, hd, ?_⟩
  rw [hq, hd]; decide

/-- C5 (amended): the data-quality panel colours a score green iff
v ≥ 0.9, orange iff 0.8 ≤ v < 0.9, red iff v < 0.8, while the
grid-quality panel uses the different strict thresholds green iff
v > 0.8, orange iff 0.6 < v ≤ 0.8; the two panels disagree (e.g. at
0.85). -/
theorem C5_data_quality_bar_colors (v : ℚ) :
    (dataQualityBarColor v = "green" ↔ 9/10 ≤ v)
    ∧ (dataQualityBarColor v = "orange" ↔ (4/5 ≤ v ∧ v < 9/10))
    ∧ (dataQualityBarColor v = "red" ↔ v < 4/5)
    ∧ (qualityMetricsBarColor v = "green" ↔ 4/5 < v)
    ∧ qualityMetricsBarColor (17/20) ≠ dataQualityBarColor (17/20) := by
  refine ⟨?_, ?_, ?_, ?_, ?_⟩
  · unfold dataQualityBarColor; split_ifs with h1 h2 <;> simp_all <;> linarith
  · unfold dataQualityBarColor; split_ifs with h1 h2 <;> simp_all <;> linarith
  · unfold dataQualityBarColor; split_ifs with h1 h2 <;> simp_all <;> linarith
  · unfold qualityMetricsBarColor; split_ifs with h1 h2 <;> simp_all <;> linarith
  · have hq : qualityMetricsBarColor (17/20) = "green" := by
      norm_num [qualityMetricsBarColor]
    have hd : dataQualityBarColor (17/20) = "orange" := by
      norm_num [dataQualityBarColor]
    rw [hq, hd]; decide

/-- C6: the validation panel colours each bar PASS→green,
WARNING→orange, FAIL→red, and any other status string falls to the
default gray (overview.py:475-476); in particular the statuses
{x: PASS, y: WARNING, z: UNKNOWN} yield [green, orange, gray]. -/
theorem C6_validation_colors (s : String) :
    validationStatusColor "PASS" = "green"
    ∧ validationStatusColor "WARNING" = "orange"
    ∧ validationStatusColor "FAIL" = "red"
    ∧ (s ≠ "PASS" → s ≠ "WARNING" → s ≠ "FAIL" → validationStatusColor s = "gray")
    ∧ validationBarColors [("x", "PASS"), ("y", "WARNING"), ("z", "UNKNOWN")]
        = ["green", "orange", "gray"] := by
  refine ⟨by decide, by decide, by decide, ?_, by decide⟩
  intro h1 h2 h3
  simp [validationStatusColor, h1, h2, h3]

/-- C6 witness: the theorem applied at the concrete status "UNKNOWN". -/
theorem C6_validation_colors_witness :
    validationStatusColor "UNKNOWN" = "gray" :=
  (C6_validation_colors "UNKNOWN").2.2.2.1 (by decide) (by decide) (by decide)

/-- C7: on the depth array [1.0, 2.0, 3.0, NaN] both the
depth-histogram routine (overview.py:606-607) and the grid-statistics
computation (overview.py:659-667) drop the NaN entry; the statistics
over the remaining three values are min = 1.0, max = 3.0,
mean = 2.0. -/
theorem C7_nan_filtered_depth_stats :
    depthHistogramData ⟨[some 1, some 2, some 3, none]⟩ = [1, 2, 3]
    ∧ validDepths ⟨[some 1, some 2, some 3, none]⟩ = [1, 2, 3]
    ∧ gridDepthStats ⟨[some 1, some 2, some 3, none]⟩ = some (1, 3, 2) := by
  have h : validDepths ⟨[some 1, some 2, some 3, none]⟩ = [1, 2, 3] := by decide
  refine ⟨by decide, h, ?_⟩
  unfold gridDepthStats
  rw [h]
  norm_num [listMin, listMax, listMean, List.foldl, min_def, max_def]

/-- The region mapping returned by `plot_comprehensive_overview` does not
depend on the save step. -/
theorem plot_comprehensive_overview_fst (p : OverviewPlotter)
    (iv iq ids : Bool) (sp : Option String) (o : SaveOracle) (fs : FS) :
    (plot_comprehensive_overview p iv iq ids sp o fs).1 = compAxes p iv iq ids := by
  by_cases h : pyTruthy sp = true <;>
    simp [plot_comprehensive_overview, h]

/-- The region mapping returned by `plot_data_analysis_overview` does not
depend on the save step. -/
theorem plot_data_analysis_overview_fst (p : OverviewPlotter)
    (sp : Option String) (o : SaveOracle) (fs : FS) :
    (plot_data_analysis_overview p sp o fs).1 = dataAxes p := by
  by_cases h : pyTruthy sp = true <;>
    simp [plot_data_analysis_overview, h]

/-- A concrete plotter with no grid handle whose delegate calls all raise
(the situation of a plotter constructed without grid data). -/
def noGridPlotter : OverviewPlotter where
  grid := none
  delegates :=
    { plotBathymetry := .error "Grid data not available"
      plotGridQuality := .error "Grid data not available"
      plotBoundaries := .error "Grid data not available"
      plotGrid := .error "Grid data not available"
      plotAtmosphericSpatial := .error "Grid data not available"
      hasAtmosphericSpatial := false }

/-- C1 counterexample: with the grid handle absent and the grid
sub-plotter raising, `plot_grid_analysis_overview` propagates the
exception instead of returning placeholder regions — its `grid`,
`quality` and `boundaries` regions (overview.py:193-206) are rendered
with no surrounding try/except. -/
theorem C1_counterexample :
    plot_grid_analysis_overview noGridPlotter none ⟨true, true⟩ ⟨[], []⟩
      = .error "Grid data not available" := by
  rfl

/-- C1 (amended): region render failures are caught and replaced by
placeholders in `plot_comprehensive_overview` and
`plot_data_analysis_overview`, whose composition always completes with
the full region mapping; but in `plot_grid_analysis_overview` the
`grid`, `quality` and `boundaries` regions delegate with no catch, so a
failure there (e.g. with the grid handle absent) aborts the whole call. -/
theorem C1_region_failure_containment (p : OverviewPlotter) (e : String)
    (sp : Option String) (o : SaveOracle) (fs : FS)
    (hb : p.delegates.plotBathymetry = .error e)
    (hbd : p.delegates.plotBoundaries = .error e)
    (hg : p.grid = none) :
    ((plot_comprehensive_overview p true true true sp o fs).1.lookup "grid"
        = some (.placeholder "Grid visualization unavailable"))
    ∧ ((plot_comprehensive_overview p true true true sp o fs).1.lookup "boundaries"
        = some (.placeholder "Boundary data unavailable"))
    ∧ ((plot_comprehensive_overview p true true true sp o fs).1.lookup "quality"
        = some (.placeholder "Grid quality metrics unavailable"))
    ∧ keysOf (plot_comprehensive_overview p true true true sp o fs).1
        = ["grid", "boundaries", "data_locations", "quality", "validation",
           "data_summary", "timeseries", "info"]
    ∧ ((plot_data_analysis_overview p sp o fs).1.lookup "boundary_locations"
        = some (.placeholder "Boundary locations unavailable"))
    ∧ keysOf (plot_data_analysis_overview p sp o fs).1
        = ["atmospheric", "boundary_locations", "coverage", "atm_timeseries",
           "boundary_ts", "data_quality", "data_stats"]
    ∧ plot_grid_analysis_overview p sp o fs = .error e := by
  rw [plot_comprehensive_overview_fst, plot_data_analysis_overview_fst]
  refine ⟨?_, ?_, ?_, ?_, ?_, ?_, ?_⟩
  · simp [compAxes, plotMainGridPanel, hb, List.lookup]
  · simp [compAxes, plotMainGridPanel, plotBoundaryPanel, hb, hbd, List.lookup]
  · simp [compAxes, plotMainGridPanel, plotBoundaryPanel, plotDataLocationsPanel,
      plotQualityMetricsPanel, hb, hbd, hg, List.lookup]
  · simp [compAxes, keysOf]
  · simp [dataAxes, plotAtmosphericOverview, plotBoundaryDataLocations, hbd, hg,
      List.lookup]
  · simp [dataAxes, keysOf]
  · simp [plot_grid_analysis_overview, gridAxesE, hb]

/-- C1 witness: the amended theorem applied to the concrete grid-less
plotter. -/
theorem C1_region_failure_containment_witness :
    ((plot_comprehensive_overview noGridPlotter true true true none
        ⟨true, true⟩ ⟨[], []⟩).1.lookup "grid"
      = some (.placeholder "Grid visualization unavailable"))
    ∧ plot_grid_analysis_overview noGridPlotter none ⟨true, true⟩ ⟨[], []⟩
      = .error "Grid data not available" := by
  have h := C1_region_failure_containment noGridPlotter "Grid data not available"
    none ⟨true, true⟩ ⟨[], []⟩ rfl rfl rfl
  exact ⟨h.1, h.2.2.2.2.2.2⟩

/-- C2: the key sets of the three returned region mappings are exactly
the documented fixed sets — `plot_comprehensive_overview` the five fixed
keys plus the three flag-gated ones, `plot_grid_analysis_overview` its
six keys (on any run that returns), `plot_data_analysis_overview` its
seven keys. -/
theorem C2_key_sets (p : OverviewPlotter) (iv iq ids : Bool)
    (sp : Option String) (o : SaveOracle) (fs : FS)
    (res : List (String × RegionContent) × FS × Bool)
    (hga : plot_grid_analysis_overview p sp o fs = .ok res) :
    keysOf (plot_comprehensive_overview p iv iq ids sp o fs).1
      = ["grid", "boundaries", "data_locations"]
        ++ (if iq then ["quality"] else [])
        ++ (if iv then ["validation"] else [])
        ++ (if ids then ["data_summary"] else [])
        ++ ["timeseries", "info"]
    ∧ keysOf res.1
      = ["grid", "quality", "boundaries", "depth_hist", "size_hist", "stats"]
    ∧ keysOf (plot_data_analysis_overview p sp o fs).1
      = ["atmospheric", "boundary_locations", "coverage", "atm_timeseries",
         "boundary_ts", "data_quality", "data_stats"] := by
  refine ⟨?_, ?_, ?_⟩
  · rw [plot_comprehensive_overview_fst]
    cases iq <;> cases iv <;> cases ids <;> simp [compAxes, keysOf]
  · rcases hb : p.delegates.plotBathymetry with e | u
    · simp [plot_grid_analysis_overview, gridAxesE, hb] at hga
    rcases hq : p.delegates.plotGridQuality with e | u2
    · simp [plot_grid_analysis_overview, gridAxesE, hb, hq] at hga
    rcases hbd : p.delegates.plotBoundaries with e | u3
    · simp [plot_grid_analysis_overview, gridAxesE, hb, hq, hbd] at hga
    by_cases hs : pyTruthy sp = true <;>
      simp [plot_grid_analysis_overview, gridAxesE, hb, hq, hbd, hs] at hga <;>
      rw [← hga] <;> simp [keysOf]
  · rw [plot_data_analysis_overview_fst]
    simp [dataAxes, keysOf]

/-- A concrete plotter whose grid handle is present and whose delegate
calls all succeed. -/
def okPlotter : OverviewPlotter where
  grid := some ⟨[some 1, some 2]⟩
  delegates :=
    { plotBathymetry := .ok ()
      plotGridQuality := .ok ()
      plotBoundaries := .ok ()
      plotGrid := .ok ()
      plotAtmosphericSpatial := .ok ()
      hasAtmosphericSpatial := true }

/-- C2 witness: the key-set theorem applied at a concrete plotter whose
delegates succeed. -/
theorem C2_key_sets_witness :
    keysOf (plot_comprehensive_overview okPlotter true true true none
        ⟨true, true⟩ ⟨[], []⟩).1
      = ["grid", "boundaries", "data_locations", "quality", "validation",
         "data_summary", "timeseries", "info"] := by
  have h := C2_key_sets okPlotter true true true none ⟨true, true⟩ ⟨[], []⟩
    ([("grid", .chart), ("quality", .chart), ("boundaries", .chart),
      ("depth_hist", .chart), ("size_hist", .chart), ("stats", .chart)],
     ⟨[], []⟩, false) rfl
  simpa using h.1

/-- C3: each of the three boolean flags of `plot_comprehensive_overview`
gates exactly its own key (`quality`, `validation`, `data_summary`), and
the remaining five keys are present for every flag combination. -/
theorem C3_flag_gating (p : OverviewPlotter) (iv iq ids : Bool)
    (sp : Option String) (o : SaveOracle) (fs : FS) :
    (("quality" ∈ keysOf (plot_comprehensive_overview p iv iq ids sp o fs).1)
        ↔ iq = true)
    ∧ (("validation" ∈ keysOf (plot_comprehensive_overview p iv iq ids sp o fs).1)
        ↔ iv = true)
    ∧ (("data_summary" ∈ keysOf (plot_comprehensive_overview p iv iq ids sp o fs).1)
        ↔ ids = true)
    ∧ (keysOf (plot_comprehensive_overview p iv iq ids sp o fs).1).filter
        (fun k => !(["quality", "validation", "data_summary"].contains k))
      = ["grid", "boundaries", "data_locations", "timeseries", "info"] := by
  rw [plot_comprehensive_overview_fst]
  cases iq <;> cases iv <;> cases ids <;>
    refine ⟨?_, ?_, ?_, ?_⟩ <;> simp [compAxes, keysOf] <;> decide

/-- Every table cell pair has length two. -/
theorem tableCell_length (items : List (String × String)) (i : ℕ) :
    (tableCell items i).length = 2 := by
  unfold tableCell; cases items.get? i <;> rfl

/-- Every table cell pair holds exactly two strings. -/
theorem tableCell_pair (items : List (String × String)) (i : ℕ) :
    ∃ a b, tableCell items i = [a, b] := by
  unfold tableCell
  cases items.get? i with
  | none => exact ⟨"", "", rfl⟩
  | some kv => exact ⟨kv.1, kv.2, rfl⟩

/-- A cell within the item range holds that key/value pair. -/
theorem tableCell_of_get (items : List (String × String)) (i : ℕ)
    (kv : String × String) (h : items.get? i = some kv) :
    tableCell items i = [kv.1, kv.2] := by
  unfold tableCell; rw [h]

/-- A cell past the item range holds two empty strings. -/
theorem tableCell_of_ge (items : List (String × String)) (i : ℕ)
    (h : items.length ≤ i) : tableCell items i = ["", ""] := by
  unfold tableCell; rw [List.get?_eq_none.mpr h]

/-- A table row is its three cells appended left to right. -/
theorem statisticsTableRow_eq (items : List (String × String)) (row : ℕ) :
    statisticsTableRow items row
      = tableCell items (row * 3)
        ++ (tableCell items (row * 3 + 1) ++ tableCell items (row * 3 + 2)) := by
  show ((([] ++ tableCell items (row * 3 + 0)) ++ tableCell items (row * 3 + 1))
          ++ tableCell items (row * 3 + 2)) = _
  simp [List.append_assoc]

/-- Row `r` of the built table, for `r` within the row count. -/
theorem statisticsTableData_getD (items : List (String × String)) (r : ℕ)
    (hr : r < (items.length + 2) / 3) :
    (statisticsTableData items).getD r [] = statisticsTableRow items r := by
  unfold statisticsTableData
  rw [List.getD_eq_getElem?_getD, List.getElem?_map,
    List.getElem?_range (by omega)]
  rfl

/-- C8: the statistics-table layout puts `n` key/value pairs into
`ceil(n/3)` rows of 6 cells, filling flat index `row*3+col` left to
right then top to bottom and padding slots past the n-th pair with empty
strings; 7 pairs make exactly 3 rows with the last row's second and
third pair slots emptied, with no failure on the uneven division. -/
theorem C8_statistics_table_layout (items : List (String × String))
    (h : items ≠ []) :
    (statisticsTableData items).length = (items.length + 2) / 3
    ∧ (∀ row ∈ statisticsTableData items, row.length = 6)
    ∧ (∀ r c, c < 3 → ∀ kv : String × String, items.get? (r * 3 + c) = some kv →
        ((statisticsTableData items).getD r []).get? (c * 2) = some kv.1
        ∧ ((statisticsTableData items).getD r []).get? (c * 2 + 1) = some kv.2)
    ∧ (∀ r c, r < (items.length + 2) / 3 → c < 3 → items.length ≤ r * 3 + c →
        ((statisticsTableData items).getD r []).get? (c * 2) = some ""
        ∧ ((statisticsTableData items).getD r []).get? (c * 2 + 1) = some "")
    ∧ statisticsTableData
        [("k1", "v1"), ("k2", "v2"), ("k3", "v3"), ("k4", "v4"), ("k5", "v5"),
         ("k6", "v6"), ("k7", "v7")]
      = [["k1", "v1", "k2", "v2", "k3", "v3"],
         ["k4", "v4", "k5", "v5", "k6", "v6"],
         ["k7", "v7", "", "", "", ""]] := by
  refine ⟨?_, ?_, ?_, ?_, by decide⟩
  · simp [statisticsTableData]
  · intro row hrow
    simp [statisticsTableData] at hrow
    obtain ⟨r, hr, hrow⟩ := hrow
    rw [← hrow, statisticsTableRow_eq]
    simp [tableCell_length]
  · intro r c hc kv hkv
    have hlt : r * 3 + c < items.length := by
      by_contra hcon
      push_neg at hcon
      rw [List.get?_eq_none.mpr hcon] at hkv
      cases hkv
    have hr : r < (items.length + 2) / 3 := by omega
    rw [statisticsTableData_getD items r hr, statisticsTableRow_eq]
    obtain ⟨a0, b0, h0⟩ := tableCell_pair items (r * 3)
    obtain ⟨a1, b1, h1⟩ := tableCell_pair items (r * 3 + 1)
    obtain ⟨a2, b2, h2⟩ := tableCell_pair items (r * 3 + 2)
    interval_cases c
    · rw [tableCell_of_get items (r * 3) kv (by simpa using hkv), h1, h2]
      constructor <;> rfl
    · rw [tableCell_of_get items (r * 3 + 1) kv hkv, h0, h2]
      constructor <;> rfl
    · rw [tableCell_of_get items (r * 3 + 2) kv hkv, h0, h1]
      constructor <;> rfl
  · intro r c hr hc hge
    rw [statisticsTableData_getD items r hr, statisticsTableRow_eq]
    obtain ⟨a0, b0, h0⟩ := tableCell_pair items (r * 3)
    obtain ⟨a1, b1, h1⟩ := tableCell_pair items (r * 3 + 1)
    obtain ⟨a2, b2, h2⟩ := tableCell_pair items (r * 3 + 2)
    interval_cases c
    · rw [tableCell_of_ge items (r * 3) (by omega), h1, h2]
      constructor <;> rfl
    · rw [tableCell_of_ge items (r * 3 + 1) (by omega), h0, h2]
      constructor <;> rfl
    · rw [tableCell_of_ge items (r * 3 + 2) (by omega), h0, h1]
      constructor <;> rfl

/-- C8 witness: the layout theorem applied to the concrete 7-pair
mapping; the theorem's instance part gives the 3-row table with the
last row padded. -/
theorem C8_statistics_table_layout_witness :
    statisticsTableData
        [("k1", "v1"), ("k2", "v2"), ("k3", "v3"), ("k4", "v4"), ("k5", "v5"),
         ("k6", "v6"), ("k7", "v7")]
      = [["k1", "v1", "k2", "v2", "k3", "v3"],
         ["k4", "v4", "k5", "v5", "k6", "v6"],
         ["k7", "v7", "", "", "", ""]] :=
  (C8_statistics_table_layout
    [("k1", "v1"), ("k2", "v2"), ("k3", "v3"), ("k4", "v4"), ("k5", "v5"),
     ("k6", "v6"), ("k7", "v7")] (by decide)).2.2.2.2

/-- Inserting a path with `exist_ok` semantics makes it a member. -/
theorem mem_addIfAbsent (x : String) (l : List String) : x ∈ addIfAbsent x l := by
  unfold addIfAbsent; split_ifs with h
  · exact h
  · exact List.mem_cons_self x l

/-- A non-empty string save path is truthy. -/
theorem pyTruthy_of_ne (path : String) (h : path ≠ "") :
    pyTruthy (some path) = true := by
  cases hb : path.isEmpty
  · simp [pyTruthy, hb]
  · exact absurd ((String.isEmpty_iff path).mp hb) h

/-- C9: a truthy save path triggers `_save_plot`, which creates the
path's parent directory and then writes the file when both filesystem
steps succeed; any saving failure (directory creation or write) is
caught and logged at error level; and regardless of the save outcome the
composing call still returns the already-composed region mapping
unchanged. -/
theorem C9_save_plot_behavior (p : OverviewPlotter) (iv iq ids : Bool)
    (o : SaveOracle) (fs : FS) (path : String) (hpath : path ≠ "") :
    ((plot_comprehensive_overview p iv iq ids (some path) o fs).1
        = (plot_comprehensive_overview p iv iq ids none o fs).1)
    ∧ ((plot_data_analysis_overview p (some path) o fs).1
        = (plot_data_analysis_overview p none o fs).1)
    ∧ (plot_comprehensive_overview p iv iq ids (some path) o fs).2
        = savePlot o fs path
    ∧ (plot_data_analysis_overview p (some path) o fs).2 = savePlot o fs path
    ∧ (∀ res, plot_grid_analysis_overview p none o fs = .ok res →
        plot_grid_analysis_overview p (some path) o fs
          = .ok (res.1, savePlot o fs path))
    ∧ (o.mkdirOk = true → parentDir path ∈ (savePlot o fs path).1.dirs)
    ∧ (o.mkdirOk = true → o.writeOk = true →
        path ∈ (savePlot o fs path).1.files ∧ (savePlot o fs path).2 = false)
    ∧ ((o.mkdirOk = false ∨ o.writeOk = false) → (savePlot o fs path).2 = true) := by
  have ht := pyTruthy_of_ne path hpath
  refine ⟨?_, ?_, ?_, ?_, ?_, ?_, ?_, ?_⟩
  · rw [plot_comprehensive_overview_fst, plot_comprehensive_overview_fst]
  · rw [plot_data_analysis_overview_fst, plot_data_analysis_overview_fst]
  · simp [plot_comprehensive_overview, ht]
  · simp [plot_data_analysis_overview, ht]
  · intro res hres
    cases hga : gridAxesE p with
    | error e => simp [plot_grid_analysis_overview, hga] at hres
    | ok axes =>
        simp [plot_grid_analysis_overview, hga, pyTruthy] at hres
        simp [plot_grid_analysis_overview, hga, ht, ← hres]
  · intro hm
    cases hw : o.writeOk <;> simp [savePlot, hm, hw] <;>
      exact mem_addIfAbsent (parentDir path) fs.dirs
  · intro hm hw
    refine ⟨?_, by simp [savePlot, hm, hw]⟩
    simp [savePlot, hm, hw]
    exact mem_addIfAbsent path fs.files
  · intro hor
    rcases hor with hm | hw
    · simp [savePlot, hm]
    · cases hm2 : o.mkdirOk <;> simp [savePlot, hm2, hw]

/-- C9 witness: the save theorem applied at a concrete writable
filesystem and path with a parent directory. -/
theorem C9_save_plot_behavior_witness :
    parentDir "out/plot.png" ∈ (savePlot ⟨true, true⟩ ⟨[], []⟩ "out/plot.png").1.dirs
    ∧ "out/plot.png" ∈ (savePlot ⟨true, true⟩ ⟨[], []⟩ "out/plot.png").1.files := by
  have h := C9_save_plot_behavior okPlotter true true true ⟨true, true⟩ ⟨[], []⟩
    "out/plot.png" (by decide)
  exact ⟨h.2.2.2.2.2.1 rfl, (h.2.2.2.2.2.2.1 rfl rfl).1⟩

/-- C10: a falsy save path — `None` or the empty string — makes every
composition entry point skip the persistence step entirely: the
filesystem is untouched, nothing is logged, and the returned surface
and region mapping equal those of the no-save call. -/
theorem C10_falsy_save_path_skips (p : OverviewPlotter) (iv iq ids : Bool)
    (o : SaveOracle) (fs : FS) (sp : Option String)
    (hfalsy : pyTruthy sp = false) :
    plot_comprehensive_overview p iv iq ids sp o fs
      = plot_comprehensive_overview p iv iq ids none o fs
    ∧ (plot_comprehensive_overview p iv iq ids sp o fs).2 = (fs, false)
    ∧ plot_data_analysis_overview p sp o fs = plot_data_analysis_overview p none o fs
    ∧ (plot_data_analysis_overview p sp o fs).2 = (fs, false)
    ∧ plot_grid_analysis_overview p sp o fs = plot_grid_analysis_overview p none o fs
    ∧ pyTruthy (some "") = false ∧ pyTruthy none = false := by
  have hn : pyTruthy (none : Option String) = false := rfl
  refine ⟨?_, ?_, ?_, ?_, ?_, rfl, rfl⟩
  · simp [plot_comprehensive_overview, hfalsy, hn]
  · simp [plot_comprehensive_overview, hfalsy]
  · simp [plot_data_analysis_overview, hfalsy, hn]
  · simp [plot_data_analysis_overview, hfalsy]
  · cases hga : gridAxesE p <;>
      simp [plot_grid_analysis_overview, hga, hfalsy, hn]

/-- C10 witness: the skip theorem applied at the concrete falsy save
path given by the empty string. -/
theorem C10_falsy_save_path_skips_witness :
    plot_comprehensive_overview okPlotter true true true (some "")
        ⟨true, true⟩ ⟨[], []⟩
      = plot_comprehensive_overview okPlotter true true true none
        ⟨true, true⟩ ⟨[], []⟩ :=
  (C10_falsy_save_path_skips okPlotter true true true ⟨true, true⟩ ⟨[], []⟩
    (some "") rfl).1
